import Mathlib

/-!
Verification of the yt-fetch orchestration engine against its specification.

The development shallowly embeds the core of the repository:
  * `yt_fetch/utils/retry.py`    — exponential-backoff retry wrapper,
  * `yt_fetch/utils/rate_limit.py` — token-bucket rate limiter,
  * `yt_fetch/core/pipeline.py`  — per-unit pipeline (`process_video`) and
    batch scheduler (`process_batch` / `_async_process_batch`),
  * the data model of `yt_fetch/core/models.py` and the writer paths of
    `yt_fetch/core/writer.py`.

External collaborators (yt-dlp, transcript API, the OS filesystem, wall-clock
time, the random jitter draw) are modelled as explicit parameters, exactly the
way the repository's own test-suite replaces them by mocks.  Machine floats of
the source are modelled as exact rationals; timestamps are explicit rational
parameters.
-/

namespace YtFetch

/-! ## Data model (`yt_fetch/core/models.py`) -/

/-- Filesystem paths, as lists of components (`out / video_id / "metadata.json"`). -/
abbrev Path := List String

/-- `Metadata` model of `models.py`.  `datetime` fields are opaque strings,
floats are exact rationals, the `raw` dict is an opaque optional string. -/
structure Metadata where
  video_id : String
  source_url : String
  title : Option String := none
  channel_title : Option String := none
  channel_id : Option String := none
  upload_date : Option String := none
  duration_seconds : Option ℚ := none
  description : Option String := none
  tags : List String := []
  view_count : Option Int := none
  like_count : Option Int := none
  fetched_at : String := ""
  metadata_source : String := ""
  raw : Option String := none
deriving Repr, DecidableEq

/-- `TranscriptSegment` model of `models.py`. -/
structure TranscriptSegment where
  start : ℚ
  duration : ℚ
  text : String
deriving Repr, DecidableEq

/-- `Transcript` model of `models.py`. -/
structure Transcript where
  video_id : String
  language : String
  is_generated : Option Bool := none
  segments : List TranscriptSegment := []
  fetched_at : String := ""
  transcript_source : String := ""
  available_languages : List String := []
  errors : List String := []
deriving Repr, DecidableEq

/-- `FetchResult` model of `models.py` (the spec's `UnitResult`). -/
structure FetchResult where
  video_id : String
  success : Bool
  metadata_path : Option Path := none
  transcript_path : Option Path := none
  media_paths : List Path := []
  metadata : Option Metadata := none
  transcript : Option Transcript := none
  errors : List String := []
deriving Repr, DecidableEq

/-- `BatchResult` model of `models.py`. -/
structure BatchResult where
  total : Nat
  succeeded : Nat
  failed : Nat
  results : List FetchResult
deriving Repr, DecidableEq

/-- Download mode (`FetchOptions.download`, `options.py`). -/
inductive DownloadMode where
  | none | video | audio | both
deriving Repr, DecidableEq

/-- The engine-relevant fields of `FetchOptions` (`yt_fetch/core/options.py`),
with the source's defaults. -/
structure FetchOptions where
  out : Path := ["out"]
  download : DownloadMode := .none
  force : Bool := false
  force_metadata : Bool := false
  force_transcript : Bool := false
  force_media : Bool := false
  retries : Nat := 3
  rate_limit : ℚ := 2
  workers : Nat := 3
  fail_fast : Bool := false
deriving Repr, DecidableEq

/-! ## Retry wrapper (`yt_fetch/utils/retry.py`)

The wrapped operation is modelled as `op : Nat → Except E A`: the argument is
the zero-based call number, so that an operation that fails on its first `k`
calls and then succeeds is a plain function.  The `except retryable_tuple`
clause of the Python source is the predicate `pred : E → Bool`: errors with
`pred e = false` are not caught by that clause and propagate at once.  The
random draw of `random.uniform(-jitter_range, jitter_range)` is an explicit
parameter `draws : Nat → ℚ`, scaled so that `draws attempt ∈ [-1, 1]`. -/

/-- Trace of one run of the retry wrapper: its final outcome, how many times
the wrapped operation was called, and the exact sleep durations in order. -/
structure RetryTrace (E A : Type) where
  result : Except E A
  calls : Nat
  sleeps : List ℚ
deriving Repr

/-- `_compute_delay` of `retry.py`:
`delay = base_delay * multiplier ** attempt`, perturbed by the jitter draw
(`random.uniform(-jitter_range, jitter_range)` = `draw * jitter_range` with
`draw ∈ [-1,1]`), floored at zero by `max(0.0, delay)`. -/
def _compute_delay (attempt : Nat) (base_delay multiplier jitter draw : ℚ) : ℚ :=
  let delay := base_delay * multiplier ^ attempt
  let jitter_range := delay * jitter
  max 0 (delay + draw * jitter_range)

/-- The `for attempt in range(max_retries + 1)` loop of `retry.py`, unrolled by
structural recursion on the number of attempts still allowed after the current
one (`remaining = max_retries - attempt`).  On a retryable error with
`remaining = 0` (i.e. `attempt >= max_retries`) the error is re-raised; on a
non-retryable error it propagates uncaught; otherwise the wrapper sleeps
`_compute_delay attempt …` and retries. -/
def retryAux (op : Nat → Except E A) (pred : E → Bool)
    (base_delay multiplier jitter : ℚ) (draws : Nat → ℚ) (attempt : Nat) :
    Nat → RetryTrace E A
  | 0 =>
    match op attempt with
    | .ok a => ⟨.ok a, 1, []⟩
    | .error e => ⟨.error e, 1, []⟩
  | remaining + 1 =>
    match op attempt with
    | .ok a => ⟨.ok a, 1, []⟩
    | .error e =>
      if pred e then
        let d := _compute_delay attempt base_delay multiplier jitter (draws attempt)
        let rest := retryAux op pred base_delay multiplier jitter draws (attempt + 1) remaining
        ⟨rest.result, rest.calls + 1, d :: rest.sleeps⟩
      else ⟨.error e, 1, []⟩

/-- `retry(...)` of `retry.py` applied to one call of the wrapped function:
runs the attempt loop starting at attempt 0 with `max_retries` retries left. -/
def retry (op : Nat → Except E A) (pred : E → Bool) (max_retries : Nat)
    (base_delay multiplier jitter : ℚ) (draws : Nat → ℚ) : RetryTrace E A :=
  retryAux op pred base_delay multiplier jitter draws 0 max_retries

/-- Key lemma for the retry loop: if the operation fails retryably on calls
`attempt, attempt+1, …, attempt+k-1` and succeeds on call `attempt+k`, and at
least `k` further attempts are allowed, the loop returns the success after
exactly `k+1` calls, sleeping the computed jitter-0 backoff delays in order. -/
theorem retryAux_eventually_ok {E A : Type} (op : Nat → Except E A) (pred : E → Bool)
    (base_delay multiplier : ℚ) (draws : Nat → ℚ) (a : A) :
    ∀ (k attempt remaining : Nat), k ≤ remaining →
    (∀ i, i < k → ∃ e, op (attempt + i) = .error e ∧ pred e = true) →
    op (attempt + k) = .ok a →
    retryAux op pred base_delay multiplier 0 draws attempt remaining =
      ⟨.ok a, k + 1,
        (List.range k).map (fun i => max 0 (base_delay * multiplier ^ (attempt + i)))⟩ := by
  intro k
  induction k with
  | zero =>
    intro attempt remaining _ _ hok
    rw [Nat.add_zero] at hok
    cases remaining <;> simp [retryAux, hok]
  | succ k ih =>
    intro attempt remaining hle hfail hok
    obtain ⟨r, rfl⟩ : ∃ r, remaining = r + 1 := by
      cases remaining with
      | zero => omega
      | succ r => exact ⟨r, rfl⟩
    obtain ⟨e, he, hpe⟩ := hfail 0 (Nat.succ_pos k)
    rw [Nat.add_zero] at he
    have hrest := ih (attempt + 1) r (by omega)
      (fun i hi => by
        have := hfail (i + 1) (by omega)
        simpa [Nat.add_comm, Nat.add_assoc, Nat.add_left_comm] using this)
      (by
        have : attempt + 1 + k = attempt + (k + 1) := by omega
        rw [this]; exact hok)
    simp only [retryAux, he, hpe, if_pos, hrest]
    rw [List.range_succ_eq_map, List.map_cons, List.map_map]
    simp only [RetryTrace.mk.injEq, List.cons.injEq, true_and]
    constructor
    · simp [_compute_delay]
    · refine List.map_congr_left (fun i _ => ?_)
      have h : attempt + 1 + i = attempt + Nat.succ i := by omega
      simp only [Function.comp_apply, h]

/-- C6: a wrapped operation that raises a retryable error on its first `k`
calls (`k < maxRetries`) and succeeds on call `k+1` is called exactly `k+1`
times, the wrapper sleeps exactly `k` times, with jitter 0 the `i`-th sleep
(1-based) lasts exactly `baseDelay * multiplier^(i-1)`, and the successful
result is returned unchanged. -/
theorem c6_retry_backoff_trace {E A : Type} (op : Nat → Except E A) (pred : E → Bool)
    (max_retries k : Nat) (base_delay multiplier : ℚ) (draws : Nat → ℚ) (a : A)
    (hk : k < max_retries)
    (hbase : 0 ≤ base_delay) (hmult : 0 ≤ multiplier)
    (hfail : ∀ i, i < k → ∃ e, op i = .error e ∧ pred e = true)
    (hok : op k = .ok a) :
    retry op pred max_retries base_delay multiplier 0 draws =
      ⟨.ok a, k + 1, (List.range k).map (fun i => base_delay * multiplier ^ i)⟩ := by
  unfold retry
  rw [retryAux_eventually_ok op pred base_delay multiplier draws a k 0 max_retries
    (le_of_lt hk) (fun i hi => by simpa using hfail i hi) (by simpa using hok)]
  refine congrArg₂ _ rfl ?_
  refine List.map_congr_left (fun i _ => ?_)
  rw [Nat.zero_add]
  exact max_eq_right (mul_nonneg hbase (pow_nonneg hmult i))

/-- Witness for C6: an operation failing retryably on calls 0 and 1 and
succeeding on call 2, with maxRetries 3, baseDelay 1, multiplier 2, jitter 0,
is called 3 times and sleeps exactly [1, 2]. -/
theorem c6_retry_backoff_trace_witness :
    (2 < 3 ∧ (0:ℚ) ≤ 1 ∧ (0:ℚ) ≤ 2) ∧
    retry (fun i => if i < 2 then .error i else .ok "done") (fun _ => true)
        3 1 2 0 (fun _ => 0) =
      ⟨.ok "done", 2 + 1, (List.range 2).map (fun i => (1:ℚ) * 2 ^ i)⟩ :=
  ⟨⟨by norm_num, by norm_num, by norm_num⟩,
    c6_retry_backoff_trace (fun i => if i < 2 then .error i else .ok "done")
      (fun _ => true) 3 2 1 2 (fun _ => 0) "done"
      (by norm_num) (by norm_num) (by norm_num)
      (fun i hi => ⟨i, by simp [hi], rfl⟩) rfl⟩

/-- C7: an operation whose first call raises an error rejected by the
retryable predicate is called exactly once, no sleep is performed, and that
same error propagates unchanged. -/
theorem c7_nonretryable_propagates {E A : Type} (op : Nat → Except E A) (pred : E → Bool)
    (max_retries : Nat) (base_delay multiplier jitter : ℚ) (draws : Nat → ℚ) (e : E)
    (hop : op 0 = .error e) (hpred : pred e = false) :
    retry op pred max_retries base_delay multiplier jitter draws =
      ⟨.error e, 1, []⟩ := by
  unfold retry
  cases max_retries <;> simp [retryAux, hop, hpred]

/-- Witness for C7: a non-retryable first error is returned after exactly one
call and zero sleeps. -/
theorem c7_nonretryable_propagates_witness :
    ((fun _ : Nat => (.error 7 : Except Nat String)) 0 = .error 7 ∧
      (fun e : Nat => e == 9) 7 = false) ∧
    retry (fun _ : Nat => (.error 7 : Except Nat String)) (fun e => e == 9)
        3 1 2 (1/4) (fun _ => 0) = ⟨.error 7, 1, []⟩ :=
  ⟨⟨rfl, by decide⟩,
    c7_nonretryable_propagates (fun _ => .error 7) (fun e => e == 9)
      3 1 2 (1/4) (fun _ => 0) 7 rfl (by decide)⟩

/-! ## Token bucket rate limiter (`yt_fetch/utils/rate_limit.py`)

`time.monotonic()` is modelled as an explicit rational `now` parameter passed
to each call; floats are exact rationals.  The lock disappears: the embedding
is of one caller's view of the bucket (the claims C8 and C10 are about a
single caller with an explicitly elapsing clock). -/

/-- The state of `TokenBucket`: `_rate`, `_capacity`, `_tokens`,
`_last_refill`. -/
structure TokenBucket where
  rate : ℚ
  capacity : ℚ
  tokens : ℚ
  last_refill : ℚ
deriving Repr, DecidableEq

/-- `TokenBucket.__init__`: capacity defaults to the rate; the bucket starts
full with `last_refill` at the construction instant. -/
def TokenBucket.mkBucket (rate : ℚ) (capacity : Option ℚ) (now : ℚ) : TokenBucket :=
  let cap := capacity.getD rate
  ⟨rate, cap, cap, now⟩

/-- `TokenBucket._refill`: add `elapsed * rate` tokens, cap at `capacity`,
update `last_refill`. -/
def TokenBucket._refill (b : TokenBucket) (now : ℚ) : TokenBucket :=
  { b with tokens := min b.capacity (b.tokens + (now - b.last_refill) * b.rate),
           last_refill := now }

/-- `TokenBucket.acquire(tokens, blocking=False)`: one pass of the loop body —
refill, then either deduct and succeed or return `false` without waiting. -/
def TokenBucket.acquireNonBlocking (b : TokenBucket) (tokens now : ℚ) : Bool × TokenBucket :=
  let b' := b._refill now
  if tokens ≤ b'.tokens then (true, { b' with tokens := b'.tokens - tokens })
  else (false, b')

/-- `TokenBucket.acquire(tokens, blocking=True)`: the `while True` loop,
bounded by explicit fuel.  Each iteration refills at the current instant; on
insufficient tokens it computes `wait = (tokens - available) / rate`, sleeps
(the clock advances by exactly `wait`) and retries.  Returns the final bucket,
the completion instant and the list of waits, or `none` if the fuel runs out
before the acquisition succeeds. -/
def TokenBucket.acquireBlockingAux (b : TokenBucket) (tokens now : ℚ) :
    Nat → Option (TokenBucket × ℚ × List ℚ)
  | 0 => none
  | fuel + 1 =>
    let b' := b._refill now
    if tokens ≤ b'.tokens then some ({ b' with tokens := b'.tokens - tokens }, now, [])
    else
      let wait := (tokens - b'.tokens) / b'.rate
      match b'.acquireBlockingAux tokens (now + wait) fuel with
      | none => none
      | some (bb, t, ws) => some (bb, t, wait :: ws)

/-- Termination of the blocking `acquire` loop: some number of iterations
suffices for the call to return `True`. -/
def TokenBucket.AcquireBlockingTerminates (b : TokenBucket) (tokens now : ℚ) : Prop :=
  ∃ fuel r, b.acquireBlockingAux tokens now fuel = some r

/-- A sequence of `n` non-blocking acquisitions of 1 token each, all issued at
the same instant `now`, threading the bucket state. -/
def TokenBucket.acquireSeq (b : TokenBucket) (now : ℚ) : Nat → List Bool × TokenBucket
  | 0 => ([], b)
  | n + 1 =>
    let s := b.acquireNonBlocking 1 now
    let rest := s.2.acquireSeq now n
    (s.1 :: rest.1, rest.2)

/-- Unfolding equation for one iteration of the blocking acquire loop. -/
theorem acquireBlockingAux_succ (b : TokenBucket) (tokens now : ℚ) (fuel : Nat) :
    b.acquireBlockingAux tokens now (fuel + 1) =
      if tokens ≤ (b._refill now).tokens then
        some ({ b._refill now with tokens := (b._refill now).tokens - tokens }, now, [])
      else
        match (b._refill now).acquireBlockingAux tokens
            (now + (tokens - (b._refill now).tokens) / (b._refill now).rate) fuel with
        | none => none
        | some (bb, t, ws) =>
          some (bb, t, (tokens - (b._refill now).tokens) / (b._refill now).rate :: ws) :=
  rfl

/-- With no time elapsing and at least `n` tokens available, `n` non-blocking
single-token acquisitions all succeed and deduct exactly `n` tokens. -/
theorem acquireSeq_all_true :
    ∀ (n : Nat) (b : TokenBucket), b.tokens ≤ b.capacity → (n : ℚ) ≤ b.tokens →
    b.acquireSeq b.last_refill n =
      (List.replicate n true, ⟨b.rate, b.capacity, b.tokens - n, b.last_refill⟩) := by
  intro n
  induction n with
  | zero =>
    rintro ⟨br, bc, bt, bl⟩ _ _
    simp [TokenBucket.acquireSeq]
  | succ n ih =>
    rintro ⟨br, bc, bt, bl⟩ hc hn
    have h1 : (1:ℚ) ≤ bt := by
      have h0 : (0:ℚ) ≤ (n:ℚ) := Nat.cast_nonneg n
      push_cast at hn
      linarith
    have hstep : TokenBucket.acquireNonBlocking ⟨br, bc, bt, bl⟩ 1 bl =
        (true, ⟨br, bc, bt - 1, bl⟩) := by
      simp [TokenBucket.acquireNonBlocking, TokenBucket._refill, min_eq_right hc, h1]
    have hrest := ih ⟨br, bc, bt - 1, bl⟩ (show bt - 1 ≤ bc by linarith)
      (show (n:ℚ) ≤ bt - 1 by push_cast at hn; linarith)
    simp only [TokenBucket.acquireSeq, hstep, hrest, List.replicate_succ, Prod.mk.injEq,
      TokenBucket.mk.injEq, true_and, and_true]
    push_cast
    ring

/-- C8: a `TokenBucket` with integer capacity `c ≥ 1` and rate `r > 0`, with
no time elapsing, grants `c` non-blocking single-token acquisitions, refuses
the `(c+1)`-th, and grants one more after `1/r` seconds elapse; each refill
adds `elapsed * rate` tokens capped at `capacity`, and a successful acquire
deducts exactly the requested amount from the refilled balance. -/
theorem c8_token_bucket_burst (c : Nat) (r now : ℚ) (hc : 1 ≤ c) (hr : 0 < r) :
    ((TokenBucket.mkBucket r (some c) now).acquireSeq now c).1 =
        List.replicate c true ∧
    (((TokenBucket.mkBucket r (some c) now).acquireSeq now c).2.acquireNonBlocking
        1 now).1 = false ∧
    ((((TokenBucket.mkBucket r (some c) now).acquireSeq now c).2.acquireNonBlocking
        1 now).2.acquireNonBlocking 1 (now + 1 / r)).1 = true ∧
    (∀ (b : TokenBucket) (t : ℚ), (b._refill t).tokens =
        min b.capacity (b.tokens + (t - b.last_refill) * b.rate)) ∧
    (∀ (b : TokenBucket) (t u : ℚ), (b.acquireNonBlocking t u).1 = true →
        (b.acquireNonBlocking t u).2.tokens = (b._refill u).tokens - t) := by
  have hc' : (1:ℚ) ≤ (c:ℚ) := by exact_mod_cast hc
  have hc0 : (0:ℚ) ≤ (c:ℚ) := by linarith
  have hseq : (TokenBucket.mkBucket r (some c) now).acquireSeq now c =
      (List.replicate c true, ⟨r, (c:ℚ), (c:ℚ) - (c:ℚ), now⟩) :=
    acquireSeq_all_true c (TokenBucket.mkBucket r (some c) now) (le_refl _) (le_refl _)
  have hm0 : min (c:ℚ) 0 = 0 := min_eq_right hc0
  have hfailstep : TokenBucket.acquireNonBlocking ⟨r, (c:ℚ), (c:ℚ) - (c:ℚ), now⟩ 1 now =
      (false, ⟨r, (c:ℚ), 0, now⟩) := by
    simp only [TokenBucket.acquireNonBlocking, TokenBucket._refill]
    norm_num [hm0]
  have hsuccstep : (TokenBucket.acquireNonBlocking ⟨r, (c:ℚ), 0, now⟩ 1 (now + 1 / r)).1 =
      true := by
    have hr1 : (0:ℚ) + (now + 1 / r - now) * r = 1 := by
      rw [zero_add, add_sub_cancel_left, one_div, inv_mul_cancel₀ (ne_of_gt hr)]
    simp only [TokenBucket.acquireNonBlocking, TokenBucket._refill]
    simp only [hr1, min_eq_right hc']
    norm_num
  refine ⟨by rw [hseq], ?_, ?_, fun b t => rfl, ?_⟩
  · rw [hseq, hfailstep]
  · rw [hseq, hfailstep]
    exact hsuccstep
  · intro b t u h
    simp only [TokenBucket.acquireNonBlocking] at h ⊢
    by_cases hle : t ≤ (b._refill u).tokens
    · simp [hle]
    · simp [hle] at h

/-- Witness for C8: capacity 2, rate 3: two acquisitions succeed, the third
fails, and after 1/3 s one more succeeds. -/
theorem c8_token_bucket_burst_witness :
    (1 ≤ 2 ∧ (0:ℚ) < 3) ∧
    ((TokenBucket.mkBucket 3 (some 2) 0).acquireSeq 0 2).1 = List.replicate 2 true ∧
    (((TokenBucket.mkBucket 3 (some 2) 0).acquireSeq 0 2).2.acquireNonBlocking
        1 0).1 = false ∧
    ((((TokenBucket.mkBucket 3 (some 2) 0).acquireSeq 0 2).2.acquireNonBlocking
        1 0).2.acquireNonBlocking 1 (0 + 1 / 3)).1 = true := by
  have h := c8_token_bucket_burst 2 3 0 (by norm_num) (by norm_num)
  exact ⟨⟨by norm_num, by norm_num⟩, by exact_mod_cast h.1, by exact_mod_cast h.2.1,
    by exact_mod_cast h.2.2.1⟩

/-- When the request exceeds the capacity, every refill caps the balance at
`capacity < tokens`, so the blocking loop never succeeds at any fuel. -/
theorem acquireBlockingAux_none_of_capacity_lt (tokens : ℚ) :
    ∀ (fuel : Nat) (b : TokenBucket) (now : ℚ), b.capacity < tokens →
    b.acquireBlockingAux tokens now fuel = none := by
  intro fuel
  induction fuel with
  | zero => intro b now _; rfl
  | succ fuel ih =>
    intro b now hlt
    have hcap : (b._refill now).tokens ≤ b.capacity := min_le_left _ _
    have hno : ¬ (tokens ≤ (b._refill now).tokens) := by
      rw [not_le]; exact lt_of_le_of_lt hcap hlt
    have hrec := ih (b._refill now)
      (now + (tokens - (b._refill now).tokens) / (b._refill now).rate)
      (by simpa [TokenBucket._refill] using hlt)
    rw [acquireBlockingAux_succ, if_neg hno, hrec]

/-- Counterexample to C10 as stated: a bucket with capacity 1, rate 1 and a
full balance never completes a blocking acquisition of 2 tokens — with the
request exceeding the capacity the call loops forever instead of eventually
returning true. -/
theorem c10_counterexample :
    ¬ TokenBucket.AcquireBlockingTerminates ⟨1, 1, 1, 0⟩ 2 0 := by
  rintro ⟨fuel, r, hr⟩
  rw [acquireBlockingAux_none_of_capacity_lt 2 fuel ⟨1, 1, 1, 0⟩ 0 (by norm_num)] at hr
  exact Option.noConfusion hr

/-- C10 (amended): blocking `acquire` of `t` tokens terminates and returns
true — within at most one sleep in the single-caller model — provided
`t ≤ capacity` and `rate > 0`; each individual wait equals the token deficit
divided by the rate.  (For requests exceeding the capacity the loop never
terminates: see the counterexample.) -/
theorem c10_blocking_acquire_terminates (b : TokenBucket) (t now : ℚ)
    (htc : t ≤ b.capacity) (hr : 0 < b.rate) :
    TokenBucket.AcquireBlockingTerminates b t now ∧
    ∃ bb done waits, b.acquireBlockingAux t now 2 = some (bb, done, waits) ∧
      waits.length ≤ 1 ∧
      ∀ w ∈ waits, w = (t - (b._refill now).tokens) / b.rate := by
  have h22 : (2:ℕ) = 1 + 1 := rfl
  by_cases h1 : t ≤ (b._refill now).tokens
  · have hstep : b.acquireBlockingAux t now 2 =
        some ({ b._refill now with tokens := (b._refill now).tokens - t }, now, []) := by
      rw [h22, acquireBlockingAux_succ, if_pos h1]
    exact ⟨⟨2, _, hstep⟩, _, now, [], hstep, by norm_num, by simp⟩
  · have hrate : (b._refill now).rate = b.rate := rfl
    have hcap : (b._refill now).capacity = b.capacity := rfl
    have hlast : (b._refill now).last_refill = now := rfl
    have hrne : (b._refill now).rate ≠ 0 := by rw [hrate]; exact ne_of_gt hr
    have hw : (b._refill now).tokens +
        (now + (t - (b._refill now).tokens) / (b._refill now).rate - now) *
          (b._refill now).rate = t := by
      rw [add_sub_cancel_left, div_mul_cancel₀ _ hrne]
      ring
    have h2 : t ≤ ((b._refill now)._refill
        (now + (t - (b._refill now).tokens) / (b._refill now).rate)).tokens := by
      show t ≤ min (b._refill now).capacity ((b._refill now).tokens +
        (now + (t - (b._refill now).tokens) / (b._refill now).rate -
          (b._refill now).last_refill) * (b._refill now).rate)
      rw [hlast, hw, hcap]
      exact le_min htc (le_refl t)
    have hinner : (b._refill now).acquireBlockingAux t
        (now + (t - (b._refill now).tokens) / (b._refill now).rate) 1 =
        some ({ (b._refill now)._refill
            (now + (t - (b._refill now).tokens) / (b._refill now).rate) with
          tokens := ((b._refill now)._refill
            (now + (t - (b._refill now).tokens) / (b._refill now).rate)).tokens - t },
          now + (t - (b._refill now).tokens) / (b._refill now).rate, []) := by
      have h11 : (1:ℕ) = 0 + 1 := rfl
      rw [h11, acquireBlockingAux_succ, if_pos h2]
    have houter : b.acquireBlockingAux t now 2 =
        some ({ (b._refill now)._refill
            (now + (t - (b._refill now).tokens) / (b._refill now).rate) with
          tokens := ((b._refill now)._refill
            (now + (t - (b._refill now).tokens) / (b._refill now).rate)).tokens - t },
          now + (t - (b._refill now).tokens) / (b._refill now).rate,
          [(t - (b._refill now).tokens) / (b._refill now).rate]) := by
      rw [h22, acquireBlockingAux_succ, if_neg h1, hinner]
    refine ⟨⟨2, _, houter⟩, _, _, _, houter, by norm_num, ?_⟩
    intro w hw'
    rw [List.mem_singleton] at hw'
    rw [hw', hrate]

/-- Witness for C10 (amended): a bucket of capacity 2, rate 1, balance 0 at
time 0 completes a blocking acquisition of 2 tokens. -/
theorem c10_blocking_acquire_terminates_witness :
    ((2:ℚ) ≤ (TokenBucket.capacity ⟨1, 2, 0, 0⟩) ∧
      (0:ℚ) < (TokenBucket.rate ⟨1, 2, 0, 0⟩)) ∧
    TokenBucket.AcquireBlockingTerminates ⟨1, 2, 0, 0⟩ 2 0 :=
  ⟨⟨by norm_num, by norm_num⟩,
    (c10_blocking_acquire_terminates ⟨1, 2, 0, 0⟩ 2 0 (by norm_num) (by norm_num)).1⟩

/-! ## Filesystem model

The output directory tree, as the pipeline and the writers observe it: a list
of existing directories and a list of files with their (structured) contents.
File contents are modelled as the structured value the writer serialized
(`writer.py` writes JSON renderings of the models); `malformed` stands for
on-disk bytes that do not deserialize to the intended model. -/

/-- One on-disk file's content. -/
inductive FileData where
  | metaJson (m : Metadata)
  | transcriptJson (t : Transcript)
  | transcriptTxt (t : Transcript)
  | transcriptVtt (t : Transcript)
  | transcriptSrt (t : Transcript)
  | mediaFile (tag : String)
  | malformed (raw : String)
deriving Repr, DecidableEq

/-- A snapshot of the output tree. -/
structure FS where
  dirs : List Path := []
  files : List (Path × FileData) := []
deriving Repr, DecidableEq

/-- `Path.exists()` for a regular file. -/
def FS.hasFile (fs : FS) (p : Path) : Bool :=
  fs.files.any (fun f => f.1 == p)

/-- `Path.exists()` for a directory. -/
def FS.dirExists (fs : FS) (p : Path) : Bool :=
  fs.dirs.any (fun d => d == p)

/-- `Path.mkdir(parents=True, exist_ok=True)` (successful case). -/
def FS.mkdir (fs : FS) (p : Path) : FS :=
  if fs.dirExists p then fs else { fs with dirs := fs.dirs ++ [p] }

/-- Create or overwrite one file. -/
def FS.writeFile (fs : FS) (p : Path) (d : FileData) : FS :=
  if fs.hasFile p then
    { fs with files := fs.files.map (fun f => if f.1 == p then (p, d) else f) }
  else
    { fs with files := fs.files ++ [(p, d)] }

/-- `Path.iterdir()`: the immediate children (subdirectories, then files) of a
directory, in creation order. -/
def FS.iterdir (fs : FS) (p : Path) : List Path :=
  fs.dirs.filter (fun d => d.dropLast == p && d.length == p.length + 1) ++
    (fs.files.map (fun f => f.1)).filter
      (fun f => f.dropLast == p && f.length == p.length + 1)

/-! ## Writers (`yt_fetch/core/writer.py`)

Each writer ensures the unit directory exists, writes its file under
`out_dir / video_id`, and returns the written path. -/

/-- `write_metadata`: writes `<out>/<video_id>/metadata.json`. -/
def write_metadata (m : Metadata) (out_dir : Path) (fs : FS) : Path × FS :=
  let video_dir := out_dir ++ [m.video_id]
  let dest := video_dir ++ ["metadata.json"]
  (dest, (fs.mkdir video_dir).writeFile dest (.metaJson m))

/-- `write_transcript_json`: writes `<out>/<video_id>/transcript.json`. -/
def write_transcript_json (t : Transcript) (out_dir : Path) (fs : FS) : Path × FS :=
  let video_dir := out_dir ++ [t.video_id]
  let dest := video_dir ++ ["transcript.json"]
  (dest, (fs.mkdir video_dir).writeFile dest (.transcriptJson t))

/-- `write_transcript_txt`: writes `<out>/<video_id>/transcript.txt`. -/
def write_transcript_txt (t : Transcript) (out_dir : Path) (fs : FS) : Path × FS :=
  let video_dir := out_dir ++ [t.video_id]
  let dest := video_dir ++ ["transcript.txt"]
  (dest, (fs.mkdir video_dir).writeFile dest (.transcriptTxt t))

/-- `write_transcript_vtt`: writes `<out>/<video_id>/transcript.vtt`. -/
def write_transcript_vtt (t : Transcript) (out_dir : Path) (fs : FS) : Path × FS :=
  let video_dir := out_dir ++ [t.video_id]
  let dest := video_dir ++ ["transcript.vtt"]
  (dest, (fs.mkdir video_dir).writeFile dest (.transcriptVtt t))

/-- `write_transcript_srt`: writes `<out>/<video_id>/transcript.srt`. -/
def write_transcript_srt (t : Transcript) (out_dir : Path) (fs : FS) : Path × FS :=
  let video_dir := out_dir ++ [t.video_id]
  let dest := video_dir ++ ["transcript.srt"]
  (dest, (fs.mkdir video_dir).writeFile dest (.transcriptSrt t))

/-! ## Per-unit pipeline (`yt_fetch/core/pipeline.py`, `process_video`) -/

/-- Python exceptions relevant to the pipeline: the collaborator domain errors
(`MetadataError`, `TranscriptError`, `MediaError`) and any other exception
(environment faults such as `OSError` from `mkdir`).  `process_video` catches
`MetadataError` around the metadata stage, `TranscriptError` around the
transcript stage and every `Exception` around the media stage; everything
else escapes. -/
inductive PyError where
  | metadataError (msg : String)
  | transcriptError (msg : String)
  | mediaError (msg : String)
  | oserror (msg : String)
deriving Repr, DecidableEq

/-- `str(exc)` for the message interpolated into the error list. -/
def PyError.msg : PyError → String
  | .metadataError m => m
  | .transcriptError m => m
  | .mediaError m => m
  | .oserror m => m

/-- `MediaResult` of `yt_fetch/services/media.py`. -/
structure MediaResult where
  video_id : String
  paths : List Path := []
  skipped : Bool := false
  errors : List String := []
deriving Repr, DecidableEq

/-- The external collaborators of the engine, exactly the functions the test
suite mocks: the three fetchers and the outcome of `Path.mkdir` for the unit
directory (OS environment).  `download_media` takes and returns the filesystem
because it writes the media files itself. -/
structure Collaborators where
  get_metadata : String → FetchOptions → Except PyError Metadata
  get_transcript : String → FetchOptions → Except PyError Transcript
  download_media : String → FetchOptions → Path → FS → Except PyError (MediaResult × FS)
  mkdir_ok : Path → Bool

/-- Collaborator fetch calls made during one `process_video` run (the spec's
"collaborator calls"; each fetch is preceded by one blocking acquisition of
the shared rate limiter, so these also count the `rate_limiter.acquire()`
calls). -/
structure CallCounts where
  metadata : Nat := 0
  transcript : Nat := 0
  media : Nat := 0
deriving Repr, DecidableEq

/-- The `--- Metadata ---` section of `process_video` (pipeline.py lines
52-72): decide `should_fetch_metadata` (force flags or missing
`metadata.json`); on fetch, call `get_metadata` and `write_metadata`,
catching only `MetadataError` into a `"metadata: …"` entry; on skip, keep the
candidate path and leave the in-memory `metadata` as `None`. -/
def metadataStage (collab : Collaborators) (video_id : String) (options : FetchOptions)
    (video_dir : Path) (fs : FS) :
    Except PyError (Option Metadata × Option Path × List String × FS × Nat) :=
  let metadata_path_candidate := video_dir ++ ["metadata.json"]
  let should_fetch_metadata :=
    options.force || options.force_metadata || !(fs.hasFile metadata_path_candidate)
  if should_fetch_metadata then
    match collab.get_metadata video_id options with
    | .ok m =>
      let w := write_metadata m options.out fs
      .ok (some m, some w.1, [], w.2, 1)
    | .error (.metadataError msg) =>
      .ok (none, none, ["metadata: " ++ msg], fs, 1)
    | .error e => .error e
  else
    .ok (none, some metadata_path_candidate, [], fs, 0)

/-- The `--- Transcript ---` section of `process_video` (pipeline.py lines
74-97): decide `should_fetch_transcript`; on fetch, call `get_transcript` and
the four transcript writers, catching only `TranscriptError` into a
`"transcript: …"` entry; on skip, keep the candidate path. -/
def transcriptStage (collab : Collaborators) (video_id : String) (options : FetchOptions)
    (video_dir : Path) (fs : FS) :
    Except PyError (Option Transcript × Option Path × List String × FS × Nat) :=
  let transcript_path_candidate := video_dir ++ ["transcript.json"]
  let should_fetch_transcript :=
    options.force || options.force_transcript || !(fs.hasFile transcript_path_candidate)
  if should_fetch_transcript then
    match collab.get_transcript video_id options with
    | .ok t =>
      let wj := write_transcript_json t options.out fs
      let wt := write_transcript_txt t options.out wj.2
      let wv := write_transcript_vtt t options.out wt.2
      let ws := write_transcript_srt t options.out wv.2
      .ok (some t, some wj.1, [], ws.2, 1)
    | .error (.transcriptError msg) =>
      .ok (none, none, ["transcript: " ++ msg], fs, 1)
    | .error e => .error e
  else
    .ok (none, some transcript_path_candidate, [], fs, 0)

/-- The `--- Media ---` section of `process_video` (pipeline.py lines
99-124): when `options.download != "none"`, decide `should_download_media`
(force flags, absent media directory, or existing but empty media directory);
on download, call `download_media`, catching every exception into a
`"media: …"` entry and extending errors with `result.errors`; on skip, list
the existing media directory.  Never raises. -/
def mediaStage (collab : Collaborators) (video_id : String) (options : FetchOptions)
    (video_dir : Path) (fs : FS) : List Path × List String × FS × Nat :=
  if options.download == .none then ([], [], fs, 0)
  else
    let media_dir := video_dir ++ ["media"]
    let should_download_media :=
      options.force || options.force_media || !(fs.dirExists media_dir) ||
        (fs.dirExists media_dir && (fs.iterdir media_dir).isEmpty)
    if should_download_media then
      match collab.download_media video_id options options.out fs with
      | .ok (result, fs') => (result.paths, result.errors, fs', 1)
      | .error e => ([], ["media: " ++ e.msg], fs, 1)
    else
      ((if fs.dirExists media_dir then fs.iterdir media_dir else []), [], fs, 0)

/-- `process_video` (pipeline.py lines 27-136): create `<out>/<video_id>/`
(an `OSError` there escapes), run the metadata, transcript and media sections
in order, and assemble the `FetchResult` with `success = (errors == [])`.
Uncaught collaborator exceptions escape as `.error`. -/
def process_video (collab : Collaborators) (video_id : String)
    (options : FetchOptions) (fs : FS) :
    Except PyError (FetchResult × FS × CallCounts) :=
  let out_dir := options.out
  let video_dir := out_dir ++ [video_id]
  if !collab.mkdir_ok video_dir then
    .error (.oserror ("cannot create directory " ++ String.intercalate "/" video_dir))
  else
    let fs0 := fs.mkdir video_dir
    match metadataStage collab video_id options video_dir fs0 with
    | .error e => .error e
    | .ok (metadata, metadata_path, errs_meta, fs1, calls_meta) =>
      match transcriptStage collab video_id options video_dir fs1 with
      | .error e => .error e
      | .ok (transcript, transcript_path, errs_trans, fs2, calls_trans) =>
        match mediaStage collab video_id options video_dir fs2 with
        | (media_paths, errs_media, fs3, calls_media) =>
          let errors := errs_meta ++ errs_trans ++ errs_media
          let success := errors.isEmpty
          .ok ({ video_id := video_id, success := success,
                 metadata_path := metadata_path, transcript_path := transcript_path,
                 media_paths := media_paths, metadata := metadata,
                 transcript := transcript, errors := errors },
               fs3, ⟨calls_meta, calls_trans, calls_media⟩)

/-- Counterexample to C1 as stated: metadata succeeds and only the transcript
stage fails, yet `process_video` returns `success = false` — the code computes
`success = (errors == [])`, so a transcript failure does flip the unit to
failure, contrary to the claim that success is true iff the metadata stage did
not fail. -/
theorem c1_counterexample :
    process_video
        ⟨fun _ _ => .ok { video_id := "v", source_url := "u" },
         fun _ _ => .error (.transcriptError "boom"),
         fun _ _ _ fs => .ok ({ video_id := "v" }, fs),
         fun _ => true⟩
        "v" {} ⟨[], []⟩ =
      .ok ({ video_id := "v", success := false,
             metadata_path := some ["out", "v", "metadata.json"],
             transcript_path := none, media_paths := [],
             metadata := some { video_id := "v", source_url := "u" },
             transcript := none, errors := ["transcript: boom"] },
           ⟨[["out", "v"]],
            [(["out", "v", "metadata.json"],
              .metaJson { video_id := "v", source_url := "u" })]⟩,
           ⟨1, 1, 0⟩) := by
  rfl

/-- C1 (amended): for every unit `process_video` completes on, `success` is
true iff the errors list is empty, i.e. iff **no** stage failed — a failure of
the transcript or media stage is recorded in `errors` and flips `success` to
false just like a metadata failure. -/
theorem c1_success_iff_no_stage_failed (collab : Collaborators) (vid : String)
    (opts : FetchOptions) (fs : FS) (r : FetchResult) (fs' : FS) (c : CallCounts)
    (h : process_video collab vid opts fs = .ok (r, fs', c)) :
    r.success = true ↔ r.errors = [] := by
  unfold process_video at h
  dsimp only at h
  split at h
  · exact absurd h (by simp)
  · split at h
    · exact absurd h (by simp)
    · split at h
      · exact absurd h (by simp)
      · simp only [Except.ok.injEq, Prod.mk.injEq] at h
        obtain ⟨hr, -, -⟩ := h
        subst hr
        simp [List.isEmpty_iff]

/-- Witness for C1 (amended): a run where everything succeeds has
`success = true` and empty errors. -/
theorem c1_success_iff_no_stage_failed_witness :
    process_video
        ⟨fun _ _ => .ok { video_id := "v", source_url := "u" },
         fun _ _ => .ok { video_id := "v", language := "en" },
         fun _ _ _ fs => .ok ({ video_id := "v" }, fs),
         fun _ => true⟩
        "v" {} ⟨[], []⟩ =
      .ok ({ video_id := "v", success := true,
             metadata_path := some ["out", "v", "metadata.json"],
             transcript_path := some ["out", "v", "transcript.json"],
             media_paths := [],
             metadata := some { video_id := "v", source_url := "u" },
             transcript := some { video_id := "v", language := "en" },
             errors := [] },
           ⟨[["out", "v"]],
            [(["out", "v", "metadata.json"], .metaJson { video_id := "v", source_url := "u" }),
             (["out", "v", "transcript.json"], .transcriptJson { video_id := "v", language := "en" }),
             (["out", "v", "transcript.txt"], .transcriptTxt { video_id := "v", language := "en" }),
             (["out", "v", "transcript.vtt"], .transcriptVtt { video_id := "v", language := "en" }),
             (["out", "v", "transcript.srt"], .transcriptSrt { video_id := "v", language := "en" })]⟩,
           ⟨1, 1, 0⟩) ∧
    (({ video_id := "v", success := true,
        metadata_path := some ["out", "v", "metadata.json"],
        transcript_path := some ["out", "v", "transcript.json"],
        media_paths := [],
        metadata := some { video_id := "v", source_url := "u" },
        transcript := some { video_id := "v", language := "en" },
        errors := [] } : FetchResult).success = true ↔
      ({ video_id := "v", success := true,
          metadata_path := some ["out", "v", "metadata.json"],
          transcript_path := some ["out", "v", "transcript.json"],
          media_paths := [],
          metadata := some { video_id := "v", source_url := "u" },
          transcript := some { video_id := "v", language := "en" },
          errors := [] } : FetchResult).errors = []) :=
  ⟨rfl,
    c1_success_iff_no_stage_failed
      ⟨fun _ _ => .ok { video_id := "v", source_url := "u" },
       fun _ _ => .ok { video_id := "v", language := "en" },
       fun _ _ _ fs => .ok ({ video_id := "v" }, fs),
       fun _ => true⟩
      "v" {} ⟨[], []⟩ _ _ _ rfl⟩

/-- Counterexample to C4 as stated: with a malformed `metadata.json` and
`transcript.json` on disk and no force flags, `process_video` skips both
stages anyway — zero collaborator calls (no refetch of the malformed cache)
and the returned result carries only the cached paths, with the in-memory
`metadata`/`transcript` values absent rather than deserialized. -/
theorem c4_counterexample :
    process_video
        ⟨fun _ _ => .ok { video_id := "v", source_url := "u" },
         fun _ _ => .ok { video_id := "v", language := "en" },
         fun _ _ _ fs => .ok ({ video_id := "v" }, fs),
         fun _ => true⟩
        "v" {}
        ⟨[["out", "v"]],
         [(["out", "v", "metadata.json"], .malformed "garbage"),
          (["out", "v", "transcript.json"], .malformed "junk")]⟩ =
      .ok ({ video_id := "v", success := true,
             metadata_path := some ["out", "v", "metadata.json"],
             transcript_path := some ["out", "v", "transcript.json"],
             media_paths := [], metadata := none, transcript := none,
             errors := [] },
           ⟨[["out", "v"]],
            [(["out", "v", "metadata.json"], .malformed "garbage"),
             (["out", "v", "transcript.json"], .malformed "junk")]⟩,
           ⟨0, 0, 0⟩) := by
  rfl

/-- C4 (amended): a cache hit is decided by existence alone — when the
artifact file exists and no force flag is set, the stage skips, returning
only the cached path with the in-memory artifact absent (no deserialization,
so a malformed cached file is reused, never refetched); a **missing** file
does trigger a refetch (exactly one collaborator call whenever the stage
completes). -/
theorem c4_cache_skip_carries_path_only (collab : Collaborators) (vid : String)
    (opts : FetchOptions) (video_dir : Path) (fs : FS)
    (hforce : opts.force = false) (hfm : opts.force_metadata = false)
    (hft : opts.force_transcript = false)
    (hmeta : fs.hasFile (video_dir ++ ["metadata.json"]) = true)
    (htrans : fs.hasFile (video_dir ++ ["transcript.json"]) = true) :
    metadataStage collab vid opts video_dir fs =
      .ok (none, some (video_dir ++ ["metadata.json"]), [], fs, 0) ∧
    transcriptStage collab vid opts video_dir fs =
      .ok (none, some (video_dir ++ ["transcript.json"]), [], fs, 0) ∧
    (∀ (fs2 : FS) (out : Option Metadata × Option Path × List String × FS × Nat),
      fs2.hasFile (video_dir ++ ["metadata.json"]) = false →
      metadataStage collab vid opts video_dir fs2 = .ok out →
      out.2.2.2.2 = 1) := by
  refine ⟨?_, ?_, ?_⟩
  · unfold metadataStage
    simp [hforce, hfm, hmeta]
  · unfold transcriptStage
    simp [hforce, hft, htrans]
  · intro fs2 out hmiss hst
    unfold metadataStage at hst
    simp only [hforce, hfm, hmiss, Bool.not_false, Bool.or_self, Bool.false_or,
      if_true] at hst
    rcases hgm : collab.get_metadata vid opts with e | m
    · rw [hgm] at hst
      rcases e with msg | msg | msg | msg
      · simp only [Except.ok.injEq] at hst
        subst hst
        rfl
      · exact absurd hst (by simp)
      · exact absurd hst (by simp)
      · exact absurd hst (by simp)
    · rw [hgm] at hst
      simp only [Except.ok.injEq] at hst
      subst hst
      rfl

/-- Witness for C4 (amended): concrete skip on an existing (malformed) cache
file. -/
theorem c4_cache_skip_carries_path_only_witness :
    (FS.hasFile ⟨[["out", "v"]], [(["out", "v", "metadata.json"], .malformed "g"),
        (["out", "v", "transcript.json"], .malformed "j")]⟩
      (["out", "v"] ++ ["metadata.json"]) = true) ∧
    metadataStage
        ⟨fun _ _ => .ok { video_id := "v", source_url := "u" },
         fun _ _ => .ok { video_id := "v", language := "en" },
         fun _ _ _ fs => .ok ({ video_id := "v" }, fs),
         fun _ => true⟩
        "v" {} ["out", "v"]
        ⟨[["out", "v"]], [(["out", "v", "metadata.json"], .malformed "g"),
          (["out", "v", "transcript.json"], .malformed "j")]⟩ =
      .ok (none, some (["out", "v"] ++ ["metadata.json"]), [],
        ⟨[["out", "v"]], [(["out", "v", "metadata.json"], .malformed "g"),
          (["out", "v", "transcript.json"], .malformed "j")]⟩, 0) :=
  ⟨by decide,
    (c4_cache_skip_carries_path_only
      ⟨fun _ _ => .ok { video_id := "v", source_url := "u" },
       fun _ _ => .ok { video_id := "v", language := "en" },
       fun _ _ _ fs => .ok ({ video_id := "v" }, fs),
       fun _ => true⟩
      "v" {} ["out", "v"]
      ⟨[["out", "v"]], [(["out", "v", "metadata.json"], .malformed "g"),
        (["out", "v", "transcript.json"], .malformed "j")]⟩
      rfl rfl rfl (by decide) (by decide)).1⟩

/-! ## Batch scheduler (`yt_fetch/core/pipeline.py`, `_async_process_batch`)

The asyncio scheduler creates one task per video id; a semaphore of
`options.workers` bounds concurrency, and the tasks acquire it in FIFO order.
The embedding below is the `workers = 1` serialization of that scheduler
(the case the fail-fast claims and tests are about): units run one after the
other in input order, and the two checks of `fail_fast_triggered` in
`_worker` collapse into the single `flag` test made before each unit runs.
A unit whose `process_video` raises is **not** guarded by any try/except in
`_worker`; the exception propagates through `asyncio.gather`, so the whole
batch computation aborts with that error. -/

/-- The `_worker` tasks of `_async_process_batch`, serialized (workers = 1):
for each video id in order, a set cancellation flag yields `None` (the unit is
skipped and `process` is never called — the id is not added to the attempted
list); otherwise the unit runs, and with `fail_fast` a failed result sets the
flag for the remaining units.  Returns the per-task results (`None` =
skipped), the list of video ids actually run, and the final filesystem. -/
def runWorkers (process : String → FS → Except PyError (FetchResult × FS))
    (fail_fast : Bool) :
    List String → Bool → FS → Except PyError (List (Option FetchResult) × List String × FS)
  | [], _, fs => .ok ([], [], fs)
  | vid :: rest, flag, fs =>
    if flag then
      match runWorkers process fail_fast rest flag fs with
      | .error e => .error e
      | .ok (completed, attempted, fs') => .ok (none :: completed, attempted, fs')
    else
      match process vid fs with
      | .error e => .error e
      | .ok (result, fs') =>
        let flag' := flag || (fail_fast && !result.success)
        match runWorkers process fail_fast rest flag' fs' with
        | .error e => .error e
        | .ok (completed, attempted, fs'') =>
          .ok (some result :: completed, vid :: attempted, fs'')

/-- `_async_process_batch` (pipeline.py lines 186-222): gather the per-task
results, drop the `None`s of skipped units, and aggregate
`total = len(results)`, `succeeded`/`failed` by counting the success flag. -/
def _async_process_batch (process : String → FS → Except PyError (FetchResult × FS))
    (fail_fast : Bool) (video_ids : List String) (fs : FS) :
    Except PyError (BatchResult × List String × FS) :=
  match runWorkers process fail_fast video_ids false fs with
  | .error e => .error e
  | .ok (completed, attempted, fs') =>
    let results := completed.filterMap id
    let succeeded := (results.filter (fun r => r.success)).length
    let failed := (results.filter (fun r => !r.success)).length
    .ok ({ total := results.length, succeeded := succeeded, failed := failed,
           results := results }, attempted, fs')

/-- One unit of `process_batch`'s work: `process_video` with the shared rate
limiter, discarding the call counter of the embedding. -/
def pipelineProcess (collab : Collaborators) (options : FetchOptions) :
    String → FS → Except PyError (FetchResult × FS) :=
  fun vid fs =>
    match process_video collab vid options fs with
    | .error e => .error e
    | .ok (r, fs', _) => .ok (r, fs')

/-- `process_batch` (pipeline.py lines 139-155): run the async batch over the
unit ids (summary writing/printing are side effects outside the return
contract). -/
def process_batch (collab : Collaborators) (options : FetchOptions)
    (video_ids : List String) (fs : FS) :
    Except PyError (BatchResult × List String × FS) :=
  _async_process_batch (pipelineProcess collab options) options.fail_fast video_ids fs

/-- Per-task result lists have one entry per video id, and the units actually
run are exactly the non-`None` entries. -/
theorem runWorkers_shape (process : String → FS → Except PyError (FetchResult × FS))
    (fail_fast : Bool) :
    ∀ (vids : List String) (flag : Bool) (fs : FS)
      (completed : List (Option FetchResult)) (attempted : List String) (fs' : FS),
    runWorkers process fail_fast vids flag fs = .ok (completed, attempted, fs') →
    completed.length = vids.length ∧
      (completed.filterMap id).length = attempted.length := by
  intro vids
  induction vids with
  | nil =>
    intro flag fs completed attempted fs' h
    simp only [runWorkers, Except.ok.injEq, Prod.mk.injEq] at h
    obtain ⟨h1, h2, -⟩ := h
    subst h1; subst h2
    simp
  | cons v rest ih =>
    intro flag fs completed attempted fs' h
    unfold runWorkers at h
    split at h
    · split at h
      · exact absurd h (by simp)
      · rename_i completed' attempted' fs'' heq
        simp only [Except.ok.injEq, Prod.mk.injEq] at h
        obtain ⟨h1, h2, -⟩ := h
        subst h1; subst h2
        obtain ⟨l1, l2⟩ := ih _ _ _ _ _ heq
        constructor
        · simpa using l1
        · simpa using l2
    · split at h
      · exact absurd h (by simp)
      · dsimp only at h
        split at h
        · exact absurd h (by simp)
        · rename_i completed' attempted' fs'' heq
          simp only [Except.ok.injEq, Prod.mk.injEq] at h
          obtain ⟨h1, h2, -⟩ := h
          subst h1; subst h2
          obtain ⟨l1, l2⟩ := ih _ _ _ _ _ heq
          constructor
          · simpa using l1
          · simpa using l2

/-- Counting helper: the successes and the failures of a result list
partition it. -/
theorem length_filter_success_add (l : List FetchResult) :
    (l.filter (fun r => r.success)).length +
      (l.filter (fun r => !r.success)).length = l.length := by
  induction l with
  | nil => rfl
  | cons r rest ih =>
    by_cases hs : r.success <;>
      simp [List.filter_cons, hs, Nat.add_assoc, Nat.add_left_comm, ih,
        Nat.succ_eq_add_one]
    · omega
    · omega

/-- C2: whenever the batch returns a `BatchResult`, `total` equals the number
of returned results, `succeeded + failed = total`, and skipped units count for
nothing: `total` equals the number of units actually run (one result per
dispatched unit; fail-fast-skipped units appear nowhere). -/
theorem c2_batch_invariants (process : String → FS → Except PyError (FetchResult × FS))
    (fail_fast : Bool) (video_ids : List String) (fs : FS)
    (b : BatchResult) (attempted : List String) (fs' : FS)
    (h : _async_process_batch process fail_fast video_ids fs = .ok (b, attempted, fs')) :
    b.total = b.results.length ∧
    b.succeeded + b.failed = b.total ∧
    b.total = attempted.length ∧
    b.total ≤ video_ids.length := by
  unfold _async_process_batch at h
  split at h
  · exact absurd h (by simp)
  · rename_i completed att fs'' heq
    simp only [Except.ok.injEq, Prod.mk.injEq] at h
    obtain ⟨h1, h2, -⟩ := h
    subst h1; subst h2
    obtain ⟨l1, l2⟩ := runWorkers_shape process fail_fast video_ids false fs
      completed att fs'' heq
    refine ⟨rfl, length_filter_success_add _, l2, ?_⟩
    calc (completed.filterMap id).length ≤ completed.length :=
          List.length_filterMap_le id completed
      _ = video_ids.length := l1

/-- Witness for C2: a concrete two-unit batch (one success, one failure)
satisfies the invariants. -/
theorem c2_batch_invariants_witness :
    _async_process_batch
        (fun vid fs => .ok (⟨vid, vid == "good", none, none, [], none, none, []⟩, fs))
        false ["good", "bad"] ⟨[], []⟩ =
      .ok ({ total := 2, succeeded := 1, failed := 1,
             results := [⟨"good", true, none, none, [], none, none, []⟩,
                         ⟨"bad", false, none, none, [], none, none, []⟩] },
           ["good", "bad"], ⟨[], []⟩) ∧
    (({ total := 2, succeeded := 1, failed := 1,
        results := [⟨"good", true, none, none, [], none, none, []⟩,
                    ⟨"bad", false, none, none, [], none, none, []⟩] } : BatchResult).total =
      ({ total := 2, succeeded := 1, failed := 1,
         results := [⟨"good", true, none, none, [], none, none, []⟩,
                     ⟨"bad", false, none, none, [], none, none, []⟩] } : BatchResult).results.length ∧
     ({ total := 2, succeeded := 1, failed := 1,
        results := [⟨"good", true, none, none, [], none, none, []⟩,
                    ⟨"bad", false, none, none, [], none, none, []⟩] } : BatchResult).succeeded +
       ({ total := 2, succeeded := 1, failed := 1,
          results := [⟨"good", true, none, none, [], none, none, []⟩,
                      ⟨"bad", false, none, none, [], none, none, []⟩] } : BatchResult).failed =
       ({ total := 2, succeeded := 1, failed := 1,
          results := [⟨"good", true, none, none, [], none, none, []⟩,
                      ⟨"bad", false, none, none, [], none, none, []⟩] } : BatchResult).total ∧
     ({ total := 2, succeeded := 1, failed := 1,
        results := [⟨"good", true, none, none, [], none, none, []⟩,
                    ⟨"bad", false, none, none, [], none, none, []⟩] } : BatchResult).total =
       (["good", "bad"] : List String).length ∧
     ({ total := 2, succeeded := 1, failed := 1,
        results := [⟨"good", true, none, none, [], none, none, []⟩,
                    ⟨"bad", false, none, none, [], none, none, []⟩] } : BatchResult).total ≤
       (["good", "bad"] : List String).length) :=
  ⟨rfl,
    c2_batch_invariants
      (fun vid fs => .ok (⟨vid, vid == "good", none, none, [], none, none, []⟩, fs))
      false ["good", "bad"] ⟨[], []⟩
      { total := 2, succeeded := 1, failed := 1,
        results := [⟨"good", true, none, none, [], none, none, []⟩,
                    ⟨"bad", false, none, none, [], none, none, []⟩] }
      ["good", "bad"] ⟨[], []⟩ rfl⟩

/-- Once the cancellation flag is set, every remaining unit is skipped: the
per-task results are all `None`, no unit is run, and the filesystem is
untouched. -/
theorem runWorkers_flag_skips (process : String → FS → Except PyError (FetchResult × FS))
    (fail_fast : Bool) :
    ∀ (vids : List String) (fs : FS),
    runWorkers process fail_fast vids true fs =
      .ok (vids.map (fun _ => none), [], fs) := by
  intro vids
  induction vids with
  | nil => intro fs; rfl
  | cons v rest ih =>
    intro fs
    unfold runWorkers
    rw [if_pos rfl, ih fs]
    rfl

/-- Step equation: with the flag clear, the head unit runs; if it returns a
result, the tail runs under the possibly-updated flag. -/
theorem runWorkers_cons_run (process : String → FS → Except PyError (FetchResult × FS))
    (fail_fast : Bool) (v : String) (rest : List String) (fs fs1 : FS) (r : FetchResult)
    (hv : process v fs = .ok (r, fs1)) :
    runWorkers process fail_fast (v :: rest) false fs =
      match runWorkers process fail_fast rest (fail_fast && !r.success) fs1 with
      | .error e => .error e
      | .ok (completed, attempted, fs2) =>
        .ok (some r :: completed, v :: attempted, fs2) := by
  conv_lhs => unfold runWorkers
  rw [if_neg (by simp), hv]
  rfl

/-- Step equation: with the flag clear, an exception escaping the head unit's
pipeline propagates out of the worker (there is no per-unit try/except). -/
theorem runWorkers_cons_error (process : String → FS → Except PyError (FetchResult × FS))
    (fail_fast : Bool) (v : String) (rest : List String) (fs : FS) (e : PyError)
    (hv : process v fs = .error e) :
    runWorkers process fail_fast (v :: rest) false fs = .error e := by
  conv_lhs => unfold runWorkers
  rw [if_neg (by simp), hv]

/-- Counterexample to C3 as stated: in a three-unit batch whose middle unit's
pipeline raises (the output directory cannot be created), the batch does NOT
catch the exception per-unit — the whole call aborts with the exception and no
`BatchResult` containing the other units is produced. -/
theorem c3_counterexample :
    process_batch
        ⟨fun vid _ => .ok { video_id := vid, source_url := "u" },
         fun vid _ => .ok { video_id := vid, language := "en" },
         fun vid _ _ fs => .ok ({ video_id := vid }, fs),
         fun p => !(p.contains "bad")⟩
        {} ["good1", "bad", "good2"] ⟨[], []⟩ =
      .error (.oserror "cannot create directory out/bad") := by
  rfl

/-- C3 (amended): the batch scheduler does not catch exceptions escaping
`process_video`; after any successfully processed prefix (no fail-fast in
play), a unit whose pipeline raises aborts the whole batch with that same
exception — no `BatchResult` is returned and the remaining units contribute
nothing. -/
theorem c3_uncaught_exception_aborts_batch
    (process : String → FS → Except PyError (FetchResult × FS))
    (v : String) (rest : List String) :
    ∀ (pre : List String) (fs : FS) (completed : List (Option FetchResult))
      (attempted : List String) (fs1 : FS) (e : PyError),
    runWorkers process false pre false fs = .ok (completed, attempted, fs1) →
    process v fs1 = .error e →
    _async_process_batch process false (pre ++ v :: rest) fs = .error e := by
  intro pre
  induction pre with
  | nil =>
    intro fs completed attempted fs1 e hpre hv
    simp only [runWorkers, Except.ok.injEq, Prod.mk.injEq] at hpre
    obtain ⟨-, -, hfs⟩ := hpre
    rw [← hfs] at hv
    rw [List.nil_append]
    unfold _async_process_batch
    rw [runWorkers_cons_error process false v rest fs e hv]
  | cons u pre ih =>
    intro fs completed attempted fs1 e hpre hv
    unfold runWorkers at hpre
    rw [if_neg (by simp)] at hpre
    rcases hu : process u fs with eu | ⟨r, fsU⟩ <;> rw [hu] at hpre
    · exact absurd hpre (by simp)
    · dsimp only at hpre
      rw [Bool.false_or, Bool.false_and] at hpre
      split at hpre
      · exact absurd hpre (by simp)
      · rename_i completed2 attempted2 fs2 heq
        simp only [Except.ok.injEq, Prod.mk.injEq] at hpre
        obtain ⟨-, -, hfs⟩ := hpre
        rw [← hfs] at hv
        have hrec := ih fsU completed2 attempted2 fs2 e heq hv
        have hW : runWorkers process false (pre ++ v :: rest) false fsU = .error e := by
          unfold _async_process_batch at hrec
          split at hrec
          · rename_i e2 herr
            simp only [Except.error.injEq] at hrec
            rw [hrec] at herr
            exact herr
          · exact absurd hrec (by simp)
        unfold _async_process_batch
        rw [List.cons_append,
          runWorkers_cons_run process false u (pre ++ v :: rest) fs fsU r hu,
          Bool.false_and, hW]

/-- Witness for C3 (amended): the prefix `["good1"]` succeeds, `"bad"` raises
`OSError` from `mkdir`, and the batch over `["good1", "bad", "good2"]` aborts
with that error. -/
theorem c3_uncaught_exception_aborts_batch_witness :
    _async_process_batch
        (pipelineProcess
          ⟨fun vid _ => .ok { video_id := vid, source_url := "u" },
           fun vid _ => .ok { video_id := vid, language := "en" },
           fun vid _ _ fs => .ok ({ video_id := vid }, fs),
           fun p => !(p.contains "bad")⟩ {})
        false (["good1"] ++ "bad" :: ["good2"]) ⟨[], []⟩ =
      .error (.oserror "cannot create directory out/bad") :=
  c3_uncaught_exception_aborts_batch
    (pipelineProcess
      ⟨fun vid _ => .ok { video_id := vid, source_url := "u" },
       fun vid _ => .ok { video_id := vid, language := "en" },
       fun vid _ _ fs => .ok ({ video_id := vid }, fs),
       fun p => !(p.contains "bad")⟩ {})
    "bad" ["good2"] ["good1"] ⟨[], []⟩
    [some { video_id := "good1", success := true,
            metadata_path := some ["out", "good1", "metadata.json"],
            transcript_path := some ["out", "good1", "transcript.json"],
            media_paths := [],
            metadata := some { video_id := "good1", source_url := "u" },
            transcript := some { video_id := "good1", language := "en" },
            errors := [] }]
    ["good1"]
    ⟨[["out", "good1"]],
     [(["out", "good1", "metadata.json"],
       .metaJson { video_id := "good1", source_url := "u" }),
      (["out", "good1", "transcript.json"],
       .transcriptJson { video_id := "good1", language := "en" }),
      (["out", "good1", "transcript.txt"],
       .transcriptTxt { video_id := "good1", language := "en" }),
      (["out", "good1", "transcript.vtt"],
       .transcriptVtt { video_id := "good1", language := "en" }),
      (["out", "good1", "transcript.srt"],
       .transcriptSrt { video_id := "good1", language := "en" })]⟩
    (.oserror "cannot create directory out/bad") rfl rfl

/-- C5: with fail-fast set and workers = 1, once unit 2 of 4 completes with
`success = false`, the remaining units are never dispatched: attempted =
`[unit1, unit2]`, and the returned batch has `total = 2 < 4` with
`failed ≥ 1`; with fail-fast unset, all four units are attempted. -/
theorem c5_fail_fast_skips_undispatched
    (process : String → FS → Except PyError (FetchResult × FS))
    (a b c d : String) (fs0 fsa fsb fsc fsd : FS) (ra rb rc rd : FetchResult)
    (ha : process a fs0 = .ok (ra, fsa)) (hsa : ra.success = true)
    (hb : process b fsa = .ok (rb, fsb)) (hsb : rb.success = false)
    (hc : process c fsb = .ok (rc, fsc)) (hd : process d fsc = .ok (rd, fsd)) :
    (∃ batch fs', _async_process_batch process true [a, b, c, d] fs0 =
        .ok (batch, [a, b], fs') ∧
      batch.total = 2 ∧ batch.total < 4 ∧ 1 ≤ batch.failed) ∧
    (∃ batch fs', _async_process_batch process false [a, b, c, d] fs0 =
        .ok (batch, [a, b, c, d], fs') ∧ batch.total = 4) := by
  constructor
  · have hrw : runWorkers process true [a, b, c, d] false fs0 =
        .ok ([some ra, some rb, none, none], [a, b], fsb) := by
      rw [runWorkers_cons_run process true a [b, c, d] fs0 fsa ra ha]
      simp only [hsa, Bool.not_true, Bool.and_false]
      rw [runWorkers_cons_run process true b [c, d] fsa fsb rb hb]
      simp only [hsb, Bool.not_false, Bool.and_true]
      rw [runWorkers_flag_skips process true [c, d] fsb]
      rfl
    refine ⟨{ total := 2,
              succeeded := (List.filter (fun r => r.success) [ra, rb]).length,
              failed := (List.filter (fun r => !r.success) [ra, rb]).length,
              results := [ra, rb] }, fsb, ?_, rfl, by norm_num, ?_⟩
    · unfold _async_process_batch
      rw [hrw]
      rfl
    · simp [hsa, hsb]
  · have hrw : runWorkers process false [a, b, c, d] false fs0 =
        .ok ([some ra, some rb, some rc, some rd], [a, b, c, d], fsd) := by
      rw [runWorkers_cons_run process false a [b, c, d] fs0 fsa ra ha, Bool.false_and,
        runWorkers_cons_run process false b [c, d] fsa fsb rb hb, Bool.false_and,
        runWorkers_cons_run process false c [d] fsb fsc rc hc, Bool.false_and,
        runWorkers_cons_run process false d [] fsc fsd rd hd, Bool.false_and]
      rfl
    refine ⟨{ total := 4,
              succeeded := (List.filter (fun r => r.success) [ra, rb, rc, rd]).length,
              failed := (List.filter (fun r => !r.success) [ra, rb, rc, rd]).length,
              results := [ra, rb, rc, rd] }, fsd, ?_, rfl⟩
    unfold _async_process_batch
    rw [hrw]
    rfl

/-- Witness for C5: four units where unit 2 fails; with fail-fast the batch
stops after two units, without it all four are attempted. -/
theorem c5_fail_fast_skips_undispatched_witness :
    (∃ batch fs', _async_process_batch
        (fun vid fs => .ok (⟨vid, vid != "b", none, none, [], none, none, []⟩, fs))
        true ["a", "b", "c", "d"] ⟨[], []⟩ =
        .ok (batch, ["a", "b"], fs') ∧
      batch.total = 2 ∧ batch.total < 4 ∧ 1 ≤ batch.failed) ∧
    (∃ batch fs', _async_process_batch
        (fun vid fs => .ok (⟨vid, vid != "b", none, none, [], none, none, []⟩, fs))
        false ["a", "b", "c", "d"] ⟨[], []⟩ =
        .ok (batch, ["a", "b", "c", "d"], fs') ∧ batch.total = 4) :=
  c5_fail_fast_skips_undispatched
    (fun vid fs => .ok (⟨vid, vid != "b", none, none, [], none, none, []⟩, fs))
    "a" "b" "c" "d" ⟨[], []⟩ ⟨[], []⟩ ⟨[], []⟩ ⟨[], []⟩ ⟨[], []⟩
    ⟨"a", true, none, none, [], none, none, []⟩
    ⟨"b", false, none, none, [], none, none, []⟩
    ⟨"c", true, none, none, [], none, none, []⟩
    ⟨"d", true, none, none, [], none, none, []⟩
    rfl rfl rfl rfl rfl rfl

/-! ## Idempotence of the second run (C9) -/

/-- `mkdir` does not change the files. -/
theorem FS.hasFile_mkdir (fs : FS) (p q : Path) :
    (fs.mkdir p).hasFile q = fs.hasFile q := by
  unfold FS.mkdir
  split <;> rfl

/-- Writing a file makes it exist. -/
theorem FS.hasFile_writeFile_self (fs : FS) (p : Path) (d : FileData) :
    (fs.writeFile p d).hasFile p = true := by
  unfold FS.writeFile
  split
  · rename_i hp
    unfold FS.hasFile at hp ⊢
    simp only [List.any_map, List.any_eq_true] at hp ⊢
    obtain ⟨f, hf, hfp⟩ := hp
    refine ⟨f, hf, ?_⟩
    simp only [Function.comp_apply, hfp]
    simp
  · unfold FS.hasFile
    simp

/-- Writing one file preserves the existence of every file. -/
theorem FS.hasFile_writeFile_of (fs : FS) (p : Path) (d : FileData) (q : Path)
    (h : fs.hasFile q = true) : (fs.writeFile p d).hasFile q = true := by
  by_cases hpq : q = p
  · subst hpq
    exact FS.hasFile_writeFile_self fs q d
  · unfold FS.writeFile
    split
    · unfold FS.hasFile at h ⊢
      simp only [List.any_map, List.any_eq_true] at h ⊢
      obtain ⟨f, hf, hfq⟩ := h
      refine ⟨f, hf, ?_⟩
      have hfq' : f.1 = q := by simpa using hfq
      have hne : (f.1 == p) = false := by simp [hfq', hpq]
      simp only [Function.comp_apply, hne, Bool.false_eq_true, if_false]
      exact hfq
    · unfold FS.hasFile at h ⊢
      simp only [List.any_append, h, Bool.true_or]

/-- `mkdir p` does not affect the existence of a different directory. -/
theorem FS.dirExists_mkdir_of_ne (fs : FS) (p q : Path) (h : q ≠ p) :
    (fs.mkdir p).dirExists q = fs.dirExists q := by
  unfold FS.mkdir
  split
  · rfl
  · unfold FS.dirExists
    simp only [List.any_append, List.any_cons, List.any_nil, Bool.or_false]
    have : (p == q) = false := by
      simp [Ne.symm h]
    rw [this, Bool.or_false]

/-- `mkdir p` does not affect the listing of a directory that `p` is not an
immediate child of (here: `p` shorter than an entry of `q` would be). -/
theorem FS.iterdir_mkdir_of_length_ne (fs : FS) (p q : Path)
    (h : p.length ≠ q.length + 1) :
    (fs.mkdir p).iterdir q = fs.iterdir q := by
  unfold FS.mkdir
  split
  · rfl
  · unfold FS.iterdir
    simp only [List.filter_append, List.filter_cons, List.filter_nil]
    have : (p.dropLast == q && p.length == q.length + 1) = false := by
      have hlen : (p.length == q.length + 1) = false := by
        simp [h]
      simp [hlen]
    rw [this]
    simp

/-- With `download = "none"` the media section does nothing. -/
theorem mediaStage_download_none (collab : Collaborators) (vid : String)
    (opts : FetchOptions) (video_dir : Path) (fs : FS)
    (hdl : opts.download = DownloadMode.none) :
    mediaStage collab vid opts video_dir fs = ([], [], fs, 0) := by
  unfold mediaStage
  simp [hdl]

/-- A metadata section that records no error returned the candidate path
(`<out>/<video_id>/metadata.json`), leaves that file on disk, and preserves
every existing file. -/
theorem metadataStage_ok_no_error (collab : Collaborators) (vid : String)
    (opts : FetchOptions) (fs : FS) (m : Option Metadata) (mp : Option Path)
    (fs' : FS) (cm : Nat)
    (hid : ∀ m0, collab.get_metadata vid opts = .ok m0 → m0.video_id = vid)
    (h : metadataStage collab vid opts (opts.out ++ [vid]) fs =
      .ok (m, mp, [], fs', cm)) :
    mp = some (opts.out ++ [vid] ++ ["metadata.json"]) ∧
    fs'.hasFile (opts.out ++ [vid] ++ ["metadata.json"]) = true ∧
    (∀ q, fs.hasFile q = true → fs'.hasFile q = true) := by
  unfold metadataStage at h
  dsimp only at h
  by_cases hsf : (opts.force || opts.force_metadata ||
      !fs.hasFile (opts.out ++ [vid] ++ ["metadata.json"])) = true
  · rw [if_pos hsf] at h
    rcases hget : collab.get_metadata vid opts with e | m0 <;> rw [hget] at h
    · rcases e with msg | msg | msg | msg
      · exact absurd h (by simp)
      · exact absurd h (by simp)
      · exact absurd h (by simp)
      · exact absurd h (by simp)
    · have hm0 : m0.video_id = vid := hid m0 hget
      simp only [Except.ok.injEq, Prod.mk.injEq, true_and] at h
      obtain ⟨-, hmp, hfs, -⟩ := h
      subst hfs
      refine ⟨?_, ?_, ?_⟩
      · rw [← hmp]
        unfold write_metadata
        rw [hm0]
      · unfold write_metadata
        rw [hm0]
        exact FS.hasFile_writeFile_self _ _ _
      · intro q hq
        unfold write_metadata
        refine FS.hasFile_writeFile_of _ _ _ _ ?_
        rw [FS.hasFile_mkdir]
        exact hq
  · rw [if_neg hsf] at h
    simp only [Except.ok.injEq, Prod.mk.injEq, true_and] at h
    obtain ⟨-, hmp, hfs, -⟩ := h
    subst hfs
    have hfile : fs.hasFile (opts.out ++ [vid] ++ ["metadata.json"]) = true := by
      by_contra hcon
      apply hsf
      have hc : fs.hasFile (opts.out ++ [vid] ++ ["metadata.json"]) = false := by
        cases hx : fs.hasFile (opts.out ++ [vid] ++ ["metadata.json"])
        · rfl
        · exact absurd hx hcon
      rw [hc]
      simp
    exact ⟨hmp.symm, hfile, fun q hq => hq⟩

set_option maxHeartbeats 1000000 in
/-- A transcript section that records no error returned the candidate path,
leaves `transcript.json` on disk, and preserves every existing file. -/
theorem transcriptStage_ok_no_error (collab : Collaborators) (vid : String)
    (opts : FetchOptions) (fs : FS) (t : Option Transcript) (tp : Option Path)
    (fs' : FS) (ct : Nat)
    (hid : ∀ t0, collab.get_transcript vid opts = .ok t0 → t0.video_id = vid)
    (h : transcriptStage collab vid opts (opts.out ++ [vid]) fs =
      .ok (t, tp, [], fs', ct)) :
    tp = some (opts.out ++ [vid] ++ ["transcript.json"]) ∧
    fs'.hasFile (opts.out ++ [vid] ++ ["transcript.json"]) = true ∧
    (∀ q, fs.hasFile q = true → fs'.hasFile q = true) := by
  unfold transcriptStage at h
  dsimp only at h
  by_cases hsf : (opts.force || opts.force_transcript ||
      !fs.hasFile (opts.out ++ [vid] ++ ["transcript.json"])) = true
  · rw [if_pos hsf] at h
    rcases hget : collab.get_transcript vid opts with e | t0 <;> rw [hget] at h
    · rcases e with msg | msg | msg | msg
      · exact absurd h (by simp)
      · exact absurd h (by simp)
      · exact absurd h (by simp)
      · exact absurd h (by simp)
    · have ht0 : t0.video_id = vid := hid t0 hget
      simp only [Except.ok.injEq, Prod.mk.injEq, true_and] at h
      obtain ⟨-, htp, hfs, -⟩ := h
      subst hfs
      refine ⟨?_, ?_, ?_⟩
      · rw [← htp]
        unfold write_transcript_json
        rw [ht0]
      · unfold write_transcript_srt write_transcript_vtt write_transcript_txt
          write_transcript_json
        rw [ht0]
        refine FS.hasFile_writeFile_of _ _ _ _ ?_
        rw [FS.hasFile_mkdir]
        refine FS.hasFile_writeFile_of _ _ _ _ ?_
        rw [FS.hasFile_mkdir]
        refine FS.hasFile_writeFile_of _ _ _ _ ?_
        rw [FS.hasFile_mkdir]
        exact FS.hasFile_writeFile_self _ _ _
      · intro q hq
        unfold write_transcript_srt write_transcript_vtt write_transcript_txt
          write_transcript_json
        refine FS.hasFile_writeFile_of _ _ _ _ ?_
        rw [FS.hasFile_mkdir]
        refine FS.hasFile_writeFile_of _ _ _ _ ?_
        rw [FS.hasFile_mkdir]
        refine FS.hasFile_writeFile_of _ _ _ _ ?_
        rw [FS.hasFile_mkdir]
        refine FS.hasFile_writeFile_of _ _ _ _ ?_
        rw [FS.hasFile_mkdir]
        exact hq
  · rw [if_neg hsf] at h
    simp only [Except.ok.injEq, Prod.mk.injEq, true_and] at h
    obtain ⟨-, htp, hfs, -⟩ := h
    subst hfs
    have hfile : fs.hasFile (opts.out ++ [vid] ++ ["transcript.json"]) = true := by
      by_contra hcon
      apply hsf
      have hc : fs.hasFile (opts.out ++ [vid] ++ ["transcript.json"]) = false := by
        cases hx : fs.hasFile (opts.out ++ [vid] ++ ["transcript.json"])
        · rfl
        · exact absurd hx hcon
      rw [hc]
      simp
    exact ⟨htp.symm, hfile, fun q hq => hq⟩

/-- Facts about a fully successful first run: the unit directory was
creatable, both structured artifact paths are the candidate paths, and (when
no media download is configured) the artifacts are on disk afterwards and no
media paths were produced. -/
theorem run1_facts (collab : Collaborators) (vid : String) (opts : FetchOptions)
    (fs0 : FS) (r1 : FetchResult) (fs1 : FS) (c1 : CallCounts)
    (hidm : ∀ m0, collab.get_metadata vid opts = .ok m0 → m0.video_id = vid)
    (hidt : ∀ t0, collab.get_transcript vid opts = .ok t0 → t0.video_id = vid)
    (h : process_video collab vid opts fs0 = .ok (r1, fs1, c1))
    (herr : r1.errors = []) :
    collab.mkdir_ok (opts.out ++ [vid]) = true ∧
    r1.metadata_path = some (opts.out ++ [vid] ++ ["metadata.json"]) ∧
    r1.transcript_path = some (opts.out ++ [vid] ++ ["transcript.json"]) ∧
    (opts.download = DownloadMode.none →
      r1.media_paths = [] ∧
      fs1.hasFile (opts.out ++ [vid] ++ ["metadata.json"]) = true ∧
      fs1.hasFile (opts.out ++ [vid] ++ ["transcript.json"]) = true) := by
  unfold process_video at h
  dsimp only at h
  split at h
  · exact absurd h (by simp)
  · rename_i hmkn
    have hmk : collab.mkdir_ok (opts.out ++ [vid]) = true := by
      cases hx : collab.mkdir_ok (opts.out ++ [vid])
      · rw [hx] at hmkn
        exact absurd rfl hmkn
      · rfl
    split at h
    · exact absurd h (by simp)
    · rename_i m mp em fsm cm heqm
      split at h
      · exact absurd h (by simp)
      · rename_i t tp et fst ct heqt
        simp only [Except.ok.injEq, Prod.mk.injEq] at h
        obtain ⟨hr, hfs, -⟩ := h
        subst hr
        have h3 : em = [] ∧ et = [] ∧
            (mediaStage collab vid opts (opts.out ++ [vid]) fst).2.1 = [] := by
          simpa [List.append_eq_nil] using herr
        obtain ⟨hem, het, hed⟩ := h3
        subst hem
        subst het
        have hmfacts := metadataStage_ok_no_error collab vid opts
          (fs0.mkdir (opts.out ++ [vid])) m mp fsm cm hidm heqm
        have htfacts := transcriptStage_ok_no_error collab vid opts
          fsm t tp fst ct hidt heqt
        refine ⟨hmk, hmfacts.1, htfacts.1, ?_⟩
        intro hdl
        have hmed := mediaStage_download_none collab vid opts
          (opts.out ++ [vid]) fst hdl
        rw [hmed] at hfs ⊢
        refine ⟨rfl, ?_, ?_⟩
        · rw [← hfs]
          exact htfacts.2.2 _ hmfacts.2.1
        · rw [← hfs]
          exact htfacts.2.1

/-- Second-run behaviour: with no force flags and every artifact already on
disk, `process_video` makes zero collaborator calls and reports the cached
paths (and, when media is configured, the listing of the media directory). -/
theorem second_run_skips (collab : Collaborators) (vid : String)
    (opts : FetchOptions) (fs : FS)
    (hforce : opts.force = false) (hfm : opts.force_metadata = false)
    (hft : opts.force_transcript = false) (hfd : opts.force_media = false)
    (hmk : collab.mkdir_ok (opts.out ++ [vid]) = true)
    (hm : fs.hasFile (opts.out ++ [vid] ++ ["metadata.json"]) = true)
    (ht : fs.hasFile (opts.out ++ [vid] ++ ["transcript.json"]) = true)
    (hd : opts.download = DownloadMode.none ∨
      (fs.dirExists (opts.out ++ [vid] ++ ["media"]) = true ∧
       (fs.iterdir (opts.out ++ [vid] ++ ["media"])).isEmpty = false)) :
    process_video collab vid opts fs =
      .ok ({ video_id := vid, success := true,
             metadata_path := some (opts.out ++ [vid] ++ ["metadata.json"]),
             transcript_path := some (opts.out ++ [vid] ++ ["transcript.json"]),
             media_paths := if opts.download == DownloadMode.none then []
               else fs.iterdir (opts.out ++ [vid] ++ ["media"]),
             metadata := none, transcript := none, errors := [] },
           fs.mkdir (opts.out ++ [vid]), ⟨0, 0, 0⟩) := by
  have hms : metadataStage collab vid opts (opts.out ++ [vid])
      (fs.mkdir (opts.out ++ [vid])) =
      .ok (none, some (opts.out ++ [vid] ++ ["metadata.json"]), [],
        fs.mkdir (opts.out ++ [vid]), 0) := by
    unfold metadataStage
    dsimp only
    have hcond : (opts.force || opts.force_metadata ||
        !(fs.mkdir (opts.out ++ [vid])).hasFile
          (opts.out ++ [vid] ++ ["metadata.json"])) = false := by
      rw [FS.hasFile_mkdir, hforce, hfm, hm]
      rfl
    rw [hcond]
    simp only [Bool.false_eq_true, if_false]
  have hts : transcriptStage collab vid opts (opts.out ++ [vid])
      (fs.mkdir (opts.out ++ [vid])) =
      .ok (none, some (opts.out ++ [vid] ++ ["transcript.json"]), [],
        fs.mkdir (opts.out ++ [vid]), 0) := by
    unfold transcriptStage
    dsimp only
    have hcond : (opts.force || opts.force_transcript ||
        !(fs.mkdir (opts.out ++ [vid])).hasFile
          (opts.out ++ [vid] ++ ["transcript.json"])) = false := by
      rw [FS.hasFile_mkdir, hforce, hft, ht]
      rfl
    rw [hcond]
    simp only [Bool.false_eq_true, if_false]
  have hdirne : (opts.out ++ [vid] ++ ["media"]) ≠ (opts.out ++ [vid]) := by
    intro hcon
    have := congrArg List.length hcon
    simp at this
  have hlen : (opts.out ++ [vid]).length ≠
      (opts.out ++ [vid] ++ ["media"]).length + 1 := by
    simp
  have hmedia : mediaStage collab vid opts (opts.out ++ [vid])
      (fs.mkdir (opts.out ++ [vid])) =
      ((if opts.download == DownloadMode.none then []
        else fs.iterdir (opts.out ++ [vid] ++ ["media"])), [],
       fs.mkdir (opts.out ++ [vid]), 0) := by
    by_cases hdl : opts.download = DownloadMode.none
    · rw [mediaStage_download_none collab vid opts (opts.out ++ [vid])
        (fs.mkdir (opts.out ++ [vid])) hdl]
      simp [hdl]
    · have hdlb : (opts.download == DownloadMode.none) = false := by
        simp [hdl]
      rcases hd with hdl2 | ⟨hdir, hne⟩
      · exact absurd hdl2 hdl
      · unfold mediaStage
        dsimp only
        rw [hdlb]
        simp only [Bool.false_eq_true, if_false]
        rw [FS.dirExists_mkdir_of_ne fs (opts.out ++ [vid])
            (opts.out ++ [vid] ++ ["media"]) hdirne,
          FS.iterdir_mkdir_of_length_ne fs (opts.out ++ [vid])
            (opts.out ++ [vid] ++ ["media"]) hlen,
          hforce, hfd, hdir, hne]
        rfl
  unfold process_video
  dsimp only
  rw [hmk]
  simp only [Bool.not_true, Bool.false_eq_true, if_false, hms, hts, hmedia]
  rfl


/-- C9: with no force flags set, after a first `process_video` run in which
every attempted stage succeeded (artifacts on disk), a second run with the
same options performs **zero** collaborator fetch calls (metadata, transcript
and media counts all 0) and returns the same artifact paths as the first
run.  The collaborator hypotheses say the fetchers label their artifact with
the requested id (as the source services do by construction), and — when a
download mode is configured — that the first run left the artifacts and the
non-empty media directory on disk, with the listing matching the returned
media paths. -/
theorem c9_idempotent_rerun (collab : Collaborators) (vid : String)
    (opts : FetchOptions) (fs0 : FS) (r1 : FetchResult) (fs1 : FS) (c1 : CallCounts)
    (hforce : opts.force = false) (hfm : opts.force_metadata = false)
    (hft : opts.force_transcript = false) (hfd : opts.force_media = false)
    (hidm : ∀ m0, collab.get_metadata vid opts = .ok m0 → m0.video_id = vid)
    (hidt : ∀ t0, collab.get_transcript vid opts = .ok t0 → t0.video_id = vid)
    (h1 : process_video collab vid opts fs0 = .ok (r1, fs1, c1))
    (herr : r1.errors = [])
    (hmedia : opts.download = DownloadMode.none ∨
      (fs1.hasFile (opts.out ++ [vid] ++ ["metadata.json"]) = true ∧
       fs1.hasFile (opts.out ++ [vid] ++ ["transcript.json"]) = true ∧
       fs1.dirExists (opts.out ++ [vid] ++ ["media"]) = true ∧
       fs1.iterdir (opts.out ++ [vid] ++ ["media"]) = r1.media_paths ∧
       r1.media_paths ≠ [])) :
    ∃ r2 fs2, process_video collab vid opts fs1 = .ok (r2, fs2, ⟨0, 0, 0⟩) ∧
      r2.metadata_path = r1.metadata_path ∧
      r2.transcript_path = r1.transcript_path ∧
      r2.media_paths = r1.media_paths := by
  obtain ⟨hmk, hmp, htp, hnone⟩ :=
    run1_facts collab vid opts fs0 r1 fs1 c1 hidm hidt h1 herr
  rcases hmedia with hdl | ⟨hf1, ht1, hdir, hpaths, hne⟩
  · obtain ⟨hmpaths, hf1, ht1⟩ := hnone hdl
    have h2 := second_run_skips collab vid opts fs1 hforce hfm hft hfd hmk hf1 ht1
      (Or.inl hdl)
    refine ⟨_, _, h2, ?_, ?_, ?_⟩
    · rw [hmp]
    · rw [htp]
    · rw [hmpaths]
      dsimp only
      simp [hdl]
  · have hnemp : (fs1.iterdir (opts.out ++ [vid] ++ ["media"])).isEmpty = false := by
      rw [hpaths]
      cases hr : r1.media_paths
      · exact absurd hr hne
      · rfl
    have h2 := second_run_skips collab vid opts fs1 hforce hfm hft hfd hmk hf1 ht1
      (Or.inr ⟨hdir, hnemp⟩)
    refine ⟨_, _, h2, ?_, ?_, ?_⟩
    · rw [hmp]
    · rw [htp]
    · by_cases hdl : opts.download = DownloadMode.none
      · exact absurd (hnone hdl).1 hne
      · have hdlb : (opts.download == DownloadMode.none) = false := by
          simp [hdl]
        dsimp only
        rw [hdlb]
        simp only [Bool.false_eq_true, if_false]
        exact hpaths

/-- Witness for C9: after a fully successful first run with the default
options (no downloads), the second run over the resulting filesystem makes
zero collaborator calls and returns the same paths. -/
theorem c9_idempotent_rerun_witness :
    ∃ r2 fs2,
      process_video
          ⟨fun _ _ => .ok { video_id := "v", source_url := "u" },
           fun _ _ => .ok { video_id := "v", language := "en" },
           fun _ _ _ fs => .ok ({ video_id := "v" }, fs),
           fun _ => true⟩
          "v" {}
          ⟨[["out", "v"]],
           [(["out", "v", "metadata.json"], .metaJson { video_id := "v", source_url := "u" }),
            (["out", "v", "transcript.json"], .transcriptJson { video_id := "v", language := "en" }),
            (["out", "v", "transcript.txt"], .transcriptTxt { video_id := "v", language := "en" }),
            (["out", "v", "transcript.vtt"], .transcriptVtt { video_id := "v", language := "en" }),
            (["out", "v", "transcript.srt"], .transcriptSrt { video_id := "v", language := "en" })]⟩ =
        .ok (r2, fs2, ⟨0, 0, 0⟩) ∧
      r2.metadata_path = FetchResult.metadata_path
        { video_id := "v", success := true,
          metadata_path := some ["out", "v", "metadata.json"],
          transcript_path := some ["out", "v", "transcript.json"],
          media_paths := [],
          metadata := some { video_id := "v", source_url := "u" },
          transcript := some { video_id := "v", language := "en" },
          errors := [] } ∧
      r2.transcript_path = FetchResult.transcript_path
        { video_id := "v", success := true,
          metadata_path := some ["out", "v", "metadata.json"],
          transcript_path := some ["out", "v", "transcript.json"],
          media_paths := [],
          metadata := some { video_id := "v", source_url := "u" },
          transcript := some { video_id := "v", language := "en" },
          errors := [] } ∧
      r2.media_paths = FetchResult.media_paths
        { video_id := "v", success := true,
          metadata_path := some ["out", "v", "metadata.json"],
          transcript_path := some ["out", "v", "transcript.json"],
          media_paths := [],
          metadata := some { video_id := "v", source_url := "u" },
          transcript := some { video_id := "v", language := "en" },
          errors := [] } :=
  c9_idempotent_rerun
    ⟨fun _ _ => .ok { video_id := "v", source_url := "u" },
     fun _ _ => .ok { video_id := "v", language := "en" },
     fun _ _ _ fs => .ok ({ video_id := "v" }, fs),
     fun _ => true⟩
    "v" {} ⟨[], []⟩
    { video_id := "v", success := true,
      metadata_path := some ["out", "v", "metadata.json"],
      transcript_path := some ["out", "v", "transcript.json"],
      media_paths := [],
      metadata := some { video_id := "v", source_url := "u" },
      transcript := some { video_id := "v", language := "en" },
      errors := [] }
    ⟨[["out", "v"]],
     [(["out", "v", "metadata.json"], .metaJson { video_id := "v", source_url := "u" }),
      (["out", "v", "transcript.json"], .transcriptJson { video_id := "v", language := "en" }),
      (["out", "v", "transcript.txt"], .transcriptTxt { video_id := "v", language := "en" }),
      (["out", "v", "transcript.vtt"], .transcriptVtt { video_id := "v", language := "en" }),
      (["out", "v", "transcript.srt"], .transcriptSrt { video_id := "v", language := "en" })]⟩
    ⟨1, 1, 0⟩ rfl rfl rfl rfl
    (by intro m0 h0; cases h0; rfl)
    (by intro t0 h0; cases h0; rfl)
    rfl rfl (Or.inl rfl)

end YtFetch
